import Mathlib

/-!
Verification of the pg0 Python client (`sdk/python/pg0/__init__.py`,
`sdk/python/build_binary.py`) against its natural-language specification.

The Python code is shallowly embedded: pure argument construction becomes
Lean functions on the configuration record, subprocess/network/filesystem
effects become explicit environment records passed to the embedded
functions, and Python exceptions become `Except` errors.  The embedding
follows the source line by line; concrete Python semantics that matter to
the claims (string truthiness, `str()` rendering, `dict.get` defaults,
case-insensitive substring tests) are modelled by the `py*` helpers below.
-/

namespace Pg0Client

/-! ## Python string primitives used by the source -/

/-- Whitespace stripped by Python's `str.strip()` (ASCII subset). -/
def pyIsSpace (c : Char) : Bool :=
  c = ' ' || c = '\t' || c = '\n' || c = '\r' || c = '\x0b' || c = '\x0c'

/-- `str.strip()`: remove leading and trailing whitespace. -/
def pyStrip (s : String) : String :=
  ⟨((s.data.dropWhile pyIsSpace).reverse.dropWhile pyIsSpace).reverse⟩

/-- ASCII lowercase of one character, as `str.lower()` does for ASCII. -/
def asciiLower (c : Char) : Char :=
  if 'A' ≤ c ∧ c ≤ 'Z' then Char.ofNat (c.toNat + 32) else c

/-- `str.lower()` (ASCII range; the matched markers are all ASCII). -/
def pyLower (s : String) : String := ⟨s.data.map asciiLower⟩

/-- Python's `needle in hay` substring test. -/
def pyContains (hay needle : String) : Bool :=
  (List.range (hay.data.length + 1)).any fun i =>
    needle.data.isPrefixOf (hay.data.drop i)

/-- `str(p)` for `self.port`: Python renders `None` as `"None"` and an
integer via its decimal form. -/
def pyStrOfPort : Option Int → String
  | some n => toString n
  | none => "None"

/-! ## JSON values and `json.loads`

`info`/`list` parse the engine's stdout with `json.loads`.  JSON values
are modelled by `Json`; numbers are modelled as integers (the engine's
info objects carry only integer numbers: `pid`, `port`).  Objects are
association lists with Python `dict` semantics (later duplicate keys
overwrite earlier values). -/

inductive Json where
  | null
  | bool (b : Bool)
  | num (n : Int)
  | str (s : String)
  | arr (elems : List Json)
  | obj (members : List (String × Json))

/-- Python `dict` lookup returning `None`-as-`none` on a missing key
(`data.get(key)`). -/
def assocGet {α : Type} : List (String × α) → String → Option α
  | [], _ => none
  | (k, v) :: rest, key => if k = key then some v else assocGet rest key

/-- Python `dict` insertion: replace the value of an existing key in
place, otherwise append. -/
def setKV : List (String × Json) → String → Json → List (String × Json)
  | [], k, v => [(k, v)]
  | (k0, v0) :: rest, k, v =>
    if k0 = k then (k0, v) :: rest else (k0, v0) :: setKV rest k v

/-- Fold parsed object members into a Python `dict` (last value wins). -/
def buildObj (ms : List (String × Json)) : List (String × Json) :=
  ms.foldl (fun acc kv => setKV acc kv.1 kv.2) []

/-- JSON insignificant whitespace. -/
def jsonWs (c : Char) : Bool := c = ' ' || c = '\t' || c = '\n' || c = '\r'

def skipWs : List Char → List Char
  | [] => []
  | c :: rest => if jsonWs c then skipWs rest else c :: rest

/-- Value of a hexadecimal digit, for `\uXXXX` escapes. -/
def hexVal (c : Char) : Option Nat :=
  if '0' ≤ c ∧ c ≤ '9' then some (c.toNat - 48)
  else if 'a' ≤ c ∧ c ≤ 'f' then some (c.toNat - 87)
  else if 'A' ≤ c ∧ c ≤ 'F' then some (c.toNat - 55)
  else none

/-- Parse the body of a JSON string after the opening quote; returns the
decoded characters and the input remaining after the closing quote.
Unescaped control characters and unknown escapes are rejected, as in
Python's strict decoder. -/
def pStrChars : Nat → List Char → Option (List Char × List Char)
  | 0, _ => none
  | _, [] => none
  | fuel + 1, c :: rest =>
    if c = '"' then some ([], rest)
    else if c = '\\' then
      match rest with
      | [] => none
      | e :: rest2 =>
        if e = '"' then (pStrChars fuel rest2).map fun p => ('"' :: p.1, p.2)
        else if e = '\\' then (pStrChars fuel rest2).map fun p => ('\\' :: p.1, p.2)
        else if e = '/' then (pStrChars fuel rest2).map fun p => ('/' :: p.1, p.2)
        else if e = 'b' then (pStrChars fuel rest2).map fun p => ('\x08' :: p.1, p.2)
        else if e = 'f' then (pStrChars fuel rest2).map fun p => ('\x0c' :: p.1, p.2)
        else if e = 'n' then (pStrChars fuel rest2).map fun p => ('\n' :: p.1, p.2)
        else if e = 'r' then (pStrChars fuel rest2).map fun p => ('\r' :: p.1, p.2)
        else if e = 't' then (pStrChars fuel rest2).map fun p => ('\t' :: p.1, p.2)
        else if e = 'u' then
          match rest2 with
          | h1 :: h2 :: h3 :: h4 :: rest3 =>
            match hexVal h1, hexVal h2, hexVal h3, hexVal h4 with
            | some a, some b, some c2, some d =>
              (pStrChars fuel rest3).map fun p =>
                (Char.ofNat (((a * 16 + b) * 16 + c2) * 16 + d) :: p.1, p.2)
            | _, _, _, _ => none
          | _ => none
        else none
    else if c.toNat < 32 then none
    else (pStrChars fuel rest).map fun p => (c :: p.1, p.2)

/-- Parse a nonempty digit run as a natural number (leading zeros are
rejected, as in strict JSON). -/
def pNat (s : List Char) : Option (Nat × List Char) :=
  let ds := s.takeWhile Char.isDigit
  let rest := s.dropWhile Char.isDigit
  match ds with
  | [] => none
  | ['0'] => some (0, rest)
  | '0' :: _ :: _ => none
  | _ =>
    some (ds.foldl (fun acc c => acc * 10 + (c.toNat - 48)) 0, rest)

/-- Parse a JSON integer (optional minus sign). -/
def pNum : List Char → Option (Int × List Char)
  | '-' :: rest => (pNat rest).map fun p => (-(p.1 : Int), p.2)
  | s => (pNat s).map fun p => ((p.1 : Int), p.2)

mutual

/-- Parse one JSON value, fuel-bounded. -/
def pVal : Nat → List Char → Option (Json × List Char)
  | 0, _ => none
  | fuel + 1, s =>
    match skipWs s with
    | [] => none
    | c :: rest =>
      if c = 'n' then
        match rest with
        | 'u' :: 'l' :: 'l' :: r => some (.null, r)
        | _ => none
      else if c = 't' then
        match rest with
        | 'r' :: 'u' :: 'e' :: r => some (.bool true, r)
        | _ => none
      else if c = 'f' then
        match rest with
        | 'a' :: 'l' :: 's' :: 'e' :: r => some (.bool false, r)
        | _ => none
      else if c = '"' then
        (pStrChars (rest.length + 1) rest).map fun p => (.str ⟨p.1⟩, p.2)
      else if c = '[' then
        match skipWs rest with
        | ']' :: r => some (.arr [], r)
        | s2 => (pArrElems fuel s2).map fun p => (.arr p.1, p.2)
      else if c = '\x7b' then
        match skipWs rest with
        | '\x7d' :: r => some (.obj [], r)
        | s2 => (pObjMembers fuel s2).map fun p => (.obj (buildObj p.1), p.2)
      else if c = '-' || c.isDigit then
        (pNum (c :: rest)).map fun p => (.num p.1, p.2)
      else none

/-- Parse the elements of a nonempty JSON array up to `]`. -/
def pArrElems : Nat → List Char → Option (List Json × List Char)
  | 0, _ => none
  | fuel + 1, s =>
    match pVal fuel s with
    | none => none
    | some (j, rest) =>
      match skipWs rest with
      | ',' :: r => (pArrElems fuel r).map fun p => (j :: p.1, p.2)
      | ']' :: r => some ([j], r)
      | _ => none

/-- Parse the members of a nonempty JSON object up to `}`. -/
def pObjMembers : Nat → List Char → Option (List (String × Json) × List Char)
  | 0, _ => none
  | fuel + 1, s =>
    match skipWs s with
    | '"' :: rest =>
      match pStrChars (rest.length + 1) rest with
      | none => none
      | some (kcs, rest2) =>
        match skipWs rest2 with
        | ':' :: rest3 =>
          match pVal fuel rest3 with
          | none => none
          | some (v, rest4) =>
            match skipWs rest4 with
            | ',' :: r => (pObjMembers fuel r).map fun p => ((⟨kcs⟩, v) :: p.1, p.2)
            | '\x7d' :: r => some ([(⟨kcs⟩, v)], r)
            | _ => none
        | _ => none
    | _ => none

end

/-- `json.loads`: parse a complete JSON document; `none` models the
`json.JSONDecodeError` Python raises on invalid input (including trailing
garbage). -/
def json_loads (s : String) : Option Json :=
  match pVal (s.data.length + 1) s.data with
  | some (j, rest) => if skipWs rest = [] then some j else none
  | none => none

/-! ## Exception classes and `InstanceInfo`

`Pg0Exc` mirrors the exception hierarchy of the source: `Pg0Error` is the
generic base, and the three subclasses are the classified outcomes.  The
source defines no further exception classes (in particular there is no
separate unsupported-platform class). -/

inductive Pg0Exc where
  | Pg0Error (msg : String)
  | Pg0NotFoundError (msg : String)
  | Pg0NotRunningError (msg : String)
  | Pg0AlreadyRunningError (msg : String)
deriving DecidableEq

/-- `InstanceInfo` (the dataclass).  Each field holds the raw JSON value
the engine reported for it — Python dataclass fields are not
runtime-typed — with `Json.null` standing for Python `None`. -/
structure InstanceInfo where
  name : Json
  running : Json
  pid : Json
  port : Json
  version : Json
  username : Json
  database : Json
  data_dir : Json
  uri : Json

/-- `InstanceInfo.from_dict`: every field is read with `dict.get`, so a
missing key yields the stated default (`"default"` for the name, `False`
for `running`, `None` for everything else) and no key or type error can
occur. -/
def InstanceInfo.from_dict (data : List (String × Json)) : InstanceInfo where
  name := (assocGet data "name").getD (.str "default")
  running := (assocGet data "running").getD (.bool false)
  pid := (assocGet data "pid").getD .null
  port := (assocGet data "port").getD .null
  version := (assocGet data "version").getD .null
  username := (assocGet data "username").getD .null
  database := (assocGet data "database").getD .null
  data_dir := (assocGet data "data_dir").getD .null
  uri := (assocGet data "uri").getD .null

/-! ## Subprocess invocation: `_run_pg0`

The engine runs as a blocking subprocess whose outcome the client sees as
a `CompletedProcess` (return code plus captured text streams).  The
embedding models `_run_pg0` from the point where the subprocess has run:
the pre-invocation binary resolution and the launch itself are modelled
separately (`find_pg0` below). -/

structure CompletedProcess where
  returncode : Int
  stdout : String
  stderr : String

/-- The stderr classification of `_run_pg0` on a nonzero exit: strip the
captured stderr, lowercase it, and match markers in order; an empty
stripped stderr falls back to a message embedding the exit code. -/
def classify_stderr (returncode : Int) (stderr_raw : String) : Pg0Exc :=
  let stderr := pyStrip stderr_raw
  if pyContains (pyLower stderr) "already running" then
    .Pg0AlreadyRunningError stderr
  else if pyContains (pyLower stderr) "no running instance" ||
          pyContains (pyLower stderr) "not running" then
    .Pg0NotRunningError stderr
  else
    .Pg0Error (if stderr = "" then
                 "pg0 command failed with code " ++ toString returncode
               else stderr)

/-- `_run_pg0(*args, check=...)` applied to the completed subprocess:
raise the classified error only when `check` holds and the exit code is
nonzero, otherwise hand the result back unchanged. -/
def run_pg0 (check : Bool) (result : CompletedProcess) :
    Except Pg0Exc CompletedProcess :=
  if check = true ∧ result.returncode ≠ 0 then
    .error (classify_stderr result.returncode result.stderr)
  else
    .ok result

/-! ## The `Pg0` handle and its argument vectors -/

/-- The `Pg0` constructor's fields.  In the source, `port` is annotated
`int = 5432`; the annotation is not enforced at runtime, so a caller may
pass `None`, which is the only representation of an unset port — the
`Option` models exactly that, with `pyStrOfPort` rendering `str(None)` as
`"None"`.  `data_dir` defaults to `None`; `config` is the open-ended
key→value mapping (`config or {}`). -/
structure Pg0 where
  name : String := "default"
  port : Option Int := some 5432
  username : String := "postgres"
  password : String := "postgres"
  database : String := "postgres"
  data_dir : Option String := none
  config : List (String × String) := []

/-- The argument vector built by `Pg0.start`: fixed subcommand, the five
always-emitted named flags (including `--port str(self.port)`), the
data directory only when `self.data_dir` is truthy (neither `None` nor
the empty string), then one `-c key=value` pair per config entry. -/
def Pg0.start_args (p : Pg0) : List String :=
  ["start", "--name", p.name, "--port", pyStrOfPort p.port,
   "--username", p.username, "--password", p.password,
   "--database", p.database]
  ++ (match p.data_dir with
      | some d => if d = "" then [] else ["--data-dir", d]
      | none => [])
  ++ p.config.foldr (fun kv acc => "-c" :: (kv.1 ++ "=" ++ kv.2) :: acc) []

/-- Argument vector of `Pg0.stop`. -/
def Pg0.stop_args (p : Pg0) : List String := ["stop", "--name", p.name]

/-- Argument vector of `Pg0.drop`. -/
def Pg0.drop_args (p : Pg0) (force : Bool) : List String :=
  ["drop", "--name", p.name] ++ (if force then ["--force"] else [])

/-- Argument vector of `Pg0.info`. -/
def Pg0.info_args (p : Pg0) : List String :=
  ["info", "--name", p.name, "-o", "json"]

/-- `Pg0.stop`: `_run_pg0("stop", "--name", self.name, check=False)`,
applied to the engine's completed process. -/
def Pg0.stop_run (_p : Pg0) (r : CompletedProcess) : Except Pg0Exc Unit :=
  (run_pg0 false r).map fun _ => ()

/-- `Pg0.drop`: `_run_pg0(*args, check=False)` with the drop arguments. -/
def Pg0.drop_run (_p : Pg0) (_force : Bool) (r : CompletedProcess) :
    Except Pg0Exc Unit :=
  (run_pg0 false r).map fun _ => ()

/-- The ways `Pg0.info` can terminate exceptionally: a classified engine
error (impossible with `check=False`), a `json.JSONDecodeError` from
`json.loads`, or an `AttributeError` when the parsed JSON document is not
an object (so `data.get` does not exist). -/
inductive InfoRaise where
  | pg0Exc (e : Pg0Exc)
  | jsonDecodeError
  | attributeError
deriving DecidableEq

/-- `Pg0.info`: run the engine in non-checking mode, `json.loads` the
captured stdout, and build an `InstanceInfo` from the resulting dict. -/
def Pg0.info_run (_p : Pg0) (r : CompletedProcess) :
    Except InfoRaise InstanceInfo :=
  match run_pg0 false r with
  | .error e => .error (.pg0Exc e)
  | .ok res =>
    match json_loads res.stdout with
    | none => .error .jsonDecodeError
    | some (.obj kvs) => .ok (InstanceInfo.from_dict kvs)
    | some _ => .error .attributeError

/-! ## Platform detection and binary resolution

Effects of the probing code are captured by an explicit environment:
the outcome of `ldd --version` (`none` models `FileNotFoundError` /
`TimeoutExpired`), `Path(p).exists()`, `shutil.which`, the GitHub
latest-release query, and the release-asset download. -/

/-- Runtime environment consulted by `_get_platform`, `_find_pg0` and
`install`.  `system`/`machine` are `platform.system().lower()` and
`platform.machine().lower()`; `install_dir` is the result of
`_get_install_dir()` (a per-user directory chosen by OS); `binary_exists`
is `(install_dir / "pg0").exists()`; `bundled_binary` records whether a
binary is bundled inside the installed package (the source never consults
it); `latest_version` is the outcome of the GitHub latest-release query;
`download_ok` is the outcome of downloading the release asset. -/
structure Env where
  system : String
  machine : String
  ldd_output : Option String
  path_exists : String → Bool
  which_pg0 : Option String
  install_dir : String
  binary_exists : Bool
  bundled_binary : Option String
  latest_version : Except String String
  download_ok : Bool

/-- The musl marker test on the `ldd --version` probe: `"musl"` occurs in
the lowercased combined stdout+stderr; a probe that raised counts as no
signal. -/
def lddMuslSignal (env : Env) : Bool :=
  match env.ldd_output with
  | some out => pyContains (pyLower out) "musl"
  | none => false

/-- The musl loader paths probed for architecture `arch_str`; the list in
the source names the f-string path and both fixed paths. -/
def muslLoaders (arch_str : String) : List String :=
  ["/lib/ld-musl-" ++ arch_str ++ ".so.1",
   "/lib/ld-musl-x86_64.so.1",
   "/lib/ld-musl-aarch64.so.1"]

/-- The Linux branch of `_get_platform` after architecture
normalization: the ldd probe first, then the loader files, defaulting to
the glibc tag. -/
def linuxTag (env : Env) (arch_str : String) : Except Pg0Exc String :=
  if lddMuslSignal env then .ok ("linux-" ++ arch_str ++ "-musl")
  else if (muslLoaders arch_str).any env.path_exists then
    .ok ("linux-" ++ arch_str ++ "-musl")
  else .ok ("linux-" ++ arch_str ++ "-gnu")

/-- `_get_platform()`: Darwin always reports the Apple-Silicon tag; Linux
normalizes the machine string and detects the libc flavor; Windows is
fixed; anything else raises `Pg0NotFoundError`, as does an unrecognized
Linux machine string. -/
def get_platform (env : Env) : Except Pg0Exc String :=
  if env.system = "darwin" then .ok "darwin-aarch64"
  else if env.system = "linux" then
    if env.machine = "x86_64" ∨ env.machine = "amd64" then
      linuxTag env "x86_64"
    else if env.machine = "aarch64" ∨ env.machine = "arm64" then
      linuxTag env "aarch64"
    else
      .error (.Pg0NotFoundError ("Unsupported Linux architecture: " ++ env.machine))
  else if env.system = "windows" then .ok "windows-x86_64"
  else .error (.Pg0NotFoundError ("Unsupported platform: " ++ env.system))

/-- What `install` did besides producing its result: whether it queried
GitHub for the latest version, attempted the release-asset download, and
wrote a binary into the install directory. -/
structure InstallOutcome where
  result : Except Pg0Exc String
  fetched_version : Bool
  download_attempted : Bool
  binary_written : Bool

/-- `install(version, force)`: return the existing binary immediately
unless forced; otherwise resolve the version (querying GitHub when none
is given), detect the platform, and download the release asset, raising
`Pg0NotFoundError` on any failure. -/
def install (version : Option String) (force : Bool) (env : Env) :
    InstallOutcome :=
  let binary_path := env.install_dir ++ "/pg0"
  if env.binary_exists ∧ ¬force then
    ⟨.ok binary_path, false, false, false⟩
  else
    let afterVersion : String → Bool → InstallOutcome := fun _v fetched =>
      match get_platform env with
      | .error e => ⟨.error e, fetched, false, false⟩
      | .ok _plat =>
        if env.download_ok then
          ⟨.ok binary_path, fetched, true, true⟩
        else
          ⟨.error (.Pg0NotFoundError "Failed to install pg0: download failed"),
           fetched, true, false⟩
    match version with
    | some v => afterVersion v false
    | none =>
      match env.latest_version with
      | .error e =>
        ⟨.error (.Pg0NotFoundError ("Failed to fetch latest version: " ++ e)),
         true, false, false⟩
      | .ok v => afterVersion v true

/-- `_find_pg0()`: `shutil.which("pg0")` first, then the per-user install
directory, then auto-install.  No other location is consulted. -/
def find_pg0 (env : Env) : Except Pg0Exc String :=
  match env.which_pg0 with
  | some p => .ok p
  | none =>
    if env.binary_exists then .ok (env.install_dir ++ "/pg0")
    else (install none false env).result

/-! ## The wheel-build downloader (`build_binary.py`) -/

/-- The shipped checksum table of `build_binary.py`.  Every entry is the
empty-string placeholder ("will be populated by CI"). -/
def CHECKSUMS : List (String × String) :=
  [("darwin-aarch64", ""),
   ("linux-x86_64-gnu", ""),
   ("linux-x86_64-musl", ""),
   ("linux-aarch64-gnu", ""),
   ("linux-aarch64-musl", ""),
   ("windows-x86_64", "")]

/-- Filesystem state left behind by `download_binary`, along with its
result. -/
structure DownloadOutcome where
  result : Except String String
  tmp_exists : Bool
  binary_installed : Bool

/-- `build_binary.download_binary`, modelled from the point where the
release asset has been downloaded to the temporary path; `digest` is the
SHA-256 hex digest of the downloaded bytes.  With a nonempty table entry
a differing digest deletes the temporary file and raises; otherwise the
temporary file is renamed into place. -/
def download_binary (checksums : List (String × String))
    (target_dir plat digest : String) : DownloadOutcome :=
  let binary_path := target_dir ++ "/pg0"
  let expected := (assocGet checksums plat).getD ""
  if expected ≠ "" then
    if digest ≠ expected then
      ⟨.error ("Checksum mismatch for " ++ plat), false, false⟩
    else
      ⟨.ok binary_path, false, true⟩
  else
    ⟨.ok binary_path, false, true⟩

/-- A glibc x86-64 Linux environment with no binary anywhere, used as the
base point for concrete witnesses and counterexamples. -/
def baseEnv : Env where
  system := "linux"
  machine := "x86_64"
  ldd_output := some "ldd (Ubuntu GLIBC 2.35-0ubuntu3) 2.35"
  path_exists := fun _ => false
  which_pg0 := none
  install_dir := "/home/user/.local/bin"
  binary_exists := false
  bundled_binary := none
  latest_version := Except.ok "v0.9.0"
  download_ok := true

/-! ## Claims -/

/-- C1, counterexample: the claim says an unset `port` suppresses the
`--port` flag, but `start` emits `--port str(self.port)` unconditionally —
even a `None` port (the only unset representation, since the field
defaults to `5432`) yields a literal `--port None` pair. -/
theorem c1_port_flag_never_omitted_cex :
    ({ port := none } : Pg0).port = none ∧
    "--port" ∈ Pg0.start_args { port := none } ∧
    "None" ∈ Pg0.start_args { port := none } := by
  decide

/-- C1, amended: `start` always emits the `--port` flag (immediately after
the name flag, with value `str(self.port)`, default `5432`); there is no
port-omission behavior, so the engine never performs its own port
selection on behalf of an unset field. -/
theorem c1_start_always_emits_port (p : Pg0) :
    "--port" ∈ p.start_args ∧
    ["start", "--name", p.name, "--port", pyStrOfPort p.port] <+: p.start_args := by
  constructor
  · simp [Pg0.start_args]
  · exact ⟨["--username", p.username, "--password", p.password,
            "--database", p.database]
          ++ (match p.data_dir with
              | some d => if d = "" then [] else ["--data-dir", d]
              | none => [])
          ++ p.config.foldr (fun kv acc => "-c" :: (kv.1 ++ "=" ++ kv.2) :: acc) [],
          by simp [Pg0.start_args]⟩

/-- C2, counterexample: `info` runs the engine with `check=False`, so a
nonzero exit alone is tolerated — but it then feeds the captured stdout to
`json.loads`, which raises on non-JSON output (here: empty stdout from a
failed invocation), so `info` does raise. -/
theorem c2_info_raises_on_non_json_cex :
    Pg0.info_run {} ⟨1, "", "Error: no such instance"⟩ =
      .error .jsonDecodeError := rfl

/-- C2, amended: `info` never raises on account of the engine's exit code
(the invocation is non-checking); whenever the engine's stdout parses as a
JSON object it returns the `InstanceInfo` built from it, and when that
object lacks a `uri` key and reports `running` false or absent — the shape
the engine prints for a never-started name — the result has
`running = False` and `uri = None`.  Non-JSON stdout, however, raises a
`json.JSONDecodeError`. -/
theorem c2_info_tolerates_nonzero_exit (p : Pg0) (r : CompletedProcess)
    (kvs : List (String × Json))
    (h : json_loads r.stdout = some (.obj kvs)) :
    p.info_run r = .ok (InstanceInfo.from_dict kvs) ∧
    (assocGet kvs "uri" = none → (InstanceInfo.from_dict kvs).uri = .null) ∧
    (assocGet kvs "running" = none →
       (InstanceInfo.from_dict kvs).running = .bool false) ∧
    (assocGet kvs "running" = some (.bool false) →
       (InstanceInfo.from_dict kvs).running = .bool false) := by
  refine ⟨?_, ?_, ?_, ?_⟩
  · simp [Pg0.info_run, run_pg0, h]
  · intro hu; simp [InstanceInfo.from_dict, hu]
  · intro hr; simp [InstanceInfo.from_dict, hr]
  · intro hr; simp [InstanceInfo.from_dict, hr]

/-- C2, witness: a nonzero-exit invocation whose stdout is the JSON object
`{"running": false}` makes `info` return (not raise) an `InstanceInfo`
with `running = False` and `uri = None`. -/
theorem c2_witness :
    Pg0.info_run ({} : Pg0) ⟨1, "\x7b\"running\": false\x7d", "warning"⟩ =
      .ok (InstanceInfo.from_dict [("running", Json.bool false)]) ∧
    (assocGet [("running", Json.bool false)] "uri" = none →
       (InstanceInfo.from_dict [("running", Json.bool false)]).uri = .null) ∧
    (assocGet [("running", Json.bool false)] "running" = none →
       (InstanceInfo.from_dict [("running", Json.bool false)]).running = .bool false) ∧
    (assocGet [("running", Json.bool false)] "running" = some (.bool false) →
       (InstanceInfo.from_dict [("running", Json.bool false)]).running = .bool false) :=
  c2_info_tolerates_nonzero_exit ({} : Pg0)
    ⟨1, "\x7b\"running\": false\x7d", "warning"⟩
    [("running", Json.bool false)] rfl

/-- C3: on a nonzero exit in checking mode the raised error is determined
solely by a case-insensitive inspection of the trimmed captured stderr
(stdout plays no role): an "already running" marker yields the
already-running error; otherwise a "no running instance" or "not running"
marker yields the not-running error; otherwise the generic error carries
the trimmed stderr, or a message embedding the exit code when the trimmed
stderr is empty. -/
theorem c3_stderr_classification (r : CompletedProcess)
    (h : r.returncode ≠ 0) :
    ∃ e, run_pg0 true r = .error e ∧
      (∀ out : String, run_pg0 true ⟨r.returncode, out, r.stderr⟩ = .error e) ∧
      (pyContains (pyLower (pyStrip r.stderr)) "already running" = true →
         e = .Pg0AlreadyRunningError (pyStrip r.stderr)) ∧
      (pyContains (pyLower (pyStrip r.stderr)) "already running" = false →
       (pyContains (pyLower (pyStrip r.stderr)) "no running instance" ||
        pyContains (pyLower (pyStrip r.stderr)) "not running") = true →
         e = .Pg0NotRunningError (pyStrip r.stderr)) ∧
      (pyContains (pyLower (pyStrip r.stderr)) "already running" = false →
       (pyContains (pyLower (pyStrip r.stderr)) "no running instance" ||
        pyContains (pyLower (pyStrip r.stderr)) "not running") = false →
         e = .Pg0Error (if pyStrip r.stderr = "" then
                          "pg0 command failed with code " ++ toString r.returncode
                        else pyStrip r.stderr)) := by
  refine ⟨classify_stderr r.returncode r.stderr, ?_, ?_, ?_, ?_, ?_⟩
  · simp [run_pg0, h]
  · intro out; simp [run_pg0, h]
  · intro h1; simp [classify_stderr, h1]
  · intro h1 h2; simp [classify_stderr, h1, h2]
  · intro h1 h2
    simp only [Bool.or_eq_false_iff] at h2
    simp [classify_stderr, h1, h2.1, h2.2]

/-- C3, witness: classification of a concrete nonzero exit whose stderr
carries an "already running" marker. -/
theorem c3_witness :
    ∃ e, run_pg0 true ⟨1, "", "Error: instance ALREADY running"⟩ = .error e ∧
      (∀ out : String,
         run_pg0 true ⟨1, out, "Error: instance ALREADY running"⟩ = .error e) ∧
      (pyContains (pyLower (pyStrip "Error: instance ALREADY running"))
         "already running" = true →
         e = .Pg0AlreadyRunningError (pyStrip "Error: instance ALREADY running")) ∧
      (pyContains (pyLower (pyStrip "Error: instance ALREADY running"))
         "already running" = false →
       (pyContains (pyLower (pyStrip "Error: instance ALREADY running"))
          "no running instance" ||
        pyContains (pyLower (pyStrip "Error: instance ALREADY running"))
          "not running") = true →
         e = .Pg0NotRunningError (pyStrip "Error: instance ALREADY running")) ∧
      (pyContains (pyLower (pyStrip "Error: instance ALREADY running"))
         "already running" = false →
       (pyContains (pyLower (pyStrip "Error: instance ALREADY running"))
          "no running instance" ||
        pyContains (pyLower (pyStrip "Error: instance ALREADY running"))
          "not running") = false →
         e = .Pg0Error (if pyStrip "Error: instance ALREADY running" = "" then
                          "pg0 command failed with code " ++ toString (1 : Int)
                        else pyStrip "Error: instance ALREADY running")) :=
  c3_stderr_classification ⟨1, "", "Error: instance ALREADY running"⟩ (by decide)

/-- C4: `stop` and `drop` run the engine with `check=False`, so whatever
the pre-state of the instance and whatever exit code, stdout and stderr
the engine produces, neither operation raises. -/
theorem c4_stop_drop_never_raise (p : Pg0) (force : Bool)
    (r : CompletedProcess) :
    p.stop_run r = .ok () ∧ p.drop_run force r = .ok () := by
  constructor <;> simp [Pg0.stop_run, Pg0.drop_run, run_pg0, Except.map]

/-- An environment in which a binary is bundled with the installed
package and another binary is on the executable search path. -/
def bothBinariesEnv : Env :=
  { baseEnv with which_pg0 := some "/usr/bin/pg0",
                 bundled_binary := some "/site-packages/pg0/bin/pg0" }

/-- C5, counterexample: the claim says a binary bundled with the package
is preferred over one found on the search path, but `_find_pg0` consults
the search path first and never looks at a bundled binary at all: with
both present, resolution returns the search-path hit. -/
theorem c5_bundled_not_preferred_cex :
    find_pg0 bothBinariesEnv = .ok "/usr/bin/pg0" ∧
    find_pg0 bothBinariesEnv ≠ .ok "/site-packages/pg0/bin/pg0" := by
  refine ⟨rfl, ?_⟩
  intro hc
  have h0 : find_pg0 bothBinariesEnv = .ok "/usr/bin/pg0" := rfl
  rw [h0] at hc
  exact absurd (Except.ok.inj hc) (by decide)

/-- C5, amended: binary resolution tries, in order and first success
winning: (1) the executable search path, (2) the per-user install
directory, (3) acquisition via `install`; a binary bundled with the
package is never consulted (the result is invariant under the presence of
a bundled binary). -/
theorem c5_resolution_order (env : Env) :
    (∀ pth, env.which_pg0 = some pth → find_pg0 env = .ok pth) ∧
    (env.which_pg0 = none → env.binary_exists = true →
       find_pg0 env = .ok (env.install_dir ++ "/pg0")) ∧
    (env.which_pg0 = none → env.binary_exists = false →
       find_pg0 env = (install none false env).result) ∧
    (∀ b, find_pg0 { env with bundled_binary := b } = find_pg0 env) := by
  obtain ⟨sys, mach, ldd, pe, wh, dir, be, bb, lv, dl⟩ := env
  refine ⟨?_, ?_, ?_, ?_⟩
  · intro pth hp; simp only at hp; simp [find_pg0, hp]
  · intro h1 h2; simp only at h1 h2; simp [find_pg0, h1, h2]
  · intro h1 h2; simp only at h1 h2; simp [find_pg0, h1, h2]
  · intro b; rfl

/-- C5, witness: with a search-path hit present, resolution returns it. -/
theorem c5_witness :
    find_pg0 { baseEnv with which_pg0 := some "/opt/bin/pg0" } =
      .ok "/opt/bin/pg0" :=
  (c5_resolution_order { baseEnv with which_pg0 := some "/opt/bin/pg0" }).1
    "/opt/bin/pg0" rfl

/-- C6: `InstanceInfo.from_dict` is total on dictionaries (every field is
read through `dict.get`, so no key or type error can occur); each missing
optional key maps to an explicit absence — `None` for the optional fields,
with `"default"`/`False` as the documented name/running defaults — and the
minimal object `{"running": false}` yields `name = "default"`,
`running = False`, and every other field `None`. -/
theorem c6_from_dict_defaults (data : List (String × Json)) :
    (assocGet data "name" = none →
       (InstanceInfo.from_dict data).name = .str "default") ∧
    (assocGet data "running" = none →
       (InstanceInfo.from_dict data).running = .bool false) ∧
    (assocGet data "pid" = none → (InstanceInfo.from_dict data).pid = .null) ∧
    (assocGet data "port" = none → (InstanceInfo.from_dict data).port = .null) ∧
    (assocGet data "version" = none →
       (InstanceInfo.from_dict data).version = .null) ∧
    (assocGet data "username" = none →
       (InstanceInfo.from_dict data).username = .null) ∧
    (assocGet data "database" = none →
       (InstanceInfo.from_dict data).database = .null) ∧
    (assocGet data "data_dir" = none →
       (InstanceInfo.from_dict data).data_dir = .null) ∧
    (assocGet data "uri" = none → (InstanceInfo.from_dict data).uri = .null) ∧
    InstanceInfo.from_dict [("running", .bool false)] =
      ⟨.str "default", .bool false, .null, .null, .null, .null, .null, .null,
       .null⟩ := by
  refine ⟨?_, ?_, ?_, ?_, ?_, ?_, ?_, ?_, ?_, rfl⟩ <;>
    · intro hk; simp [InstanceInfo.from_dict, hk]

/-- C6, witness: the minimal dictionary `{"running": false}` — which lacks
a `uri` key — produces a `uri` of `None` and the stated minimal
`InstanceInfo`. -/
theorem c6_witness :
    (InstanceInfo.from_dict [("running", Json.bool false)]).uri = .null ∧
    InstanceInfo.from_dict [("running", .bool false)] =
      ⟨.str "default", .bool false, .null, .null, .null, .null, .null, .null,
       .null⟩ :=
  ⟨(c6_from_dict_defaults [("running", Json.bool false)]).2.2.2.2.2.2.2.2.1 rfl,
   (c6_from_dict_defaults [("running", Json.bool false)]).2.2.2.2.2.2.2.2.2⟩

/-- C7, counterexample: the claim says a digest that differs from the
checksum table entry for its target is always fatal, but the shipped
table's entries are all empty placeholders and an empty entry disables
verification: for target `linux-x86_64-gnu` the table entry is `""`, the
digest differs from it, and the download is accepted and installed with
no error. -/
theorem c7_empty_checksum_entry_accepted_cex :
    assocGet CHECKSUMS "linux-x86_64-gnu" = some "" ∧
    "4f2a9c" ≠ "" ∧
    download_binary CHECKSUMS "/site-packages/pg0/bin" "linux-x86_64-gnu"
        "4f2a9c" =
      ⟨.ok "/site-packages/pg0/bin/pg0", false, true⟩ :=
  ⟨rfl, by decide, rfl⟩

/-- C7, amended: checksum verification runs only when the table entry for
the target is nonempty; in that case a differing digest is fatal — the
checksum-mismatch error is raised, the temporary file is deleted, and no
binary is installed.  An empty table entry (as every shipped entry is)
skips verification entirely, and the runtime `install` path performs no
checksum verification at all. -/
theorem c7_nonempty_checksum_mismatch_fatal
    (checksums : List (String × String)) (dir plat digest expected : String)
    (hc : assocGet checksums plat = some expected)
    (hne : expected ≠ "") (hdiff : digest ≠ expected) :
    download_binary checksums dir plat digest =
      ⟨.error ("Checksum mismatch for " ++ plat), false, false⟩ := by
  simp [download_binary, hc, hne, hdiff]

/-- C7, witness: a populated table entry and a differing digest make the
download fail with the checksum error, the temporary file deleted and
nothing installed. -/
theorem c7_witness :
    download_binary [("linux-x86_64-gnu", "aaaa")] "/b" "linux-x86_64-gnu"
        "bbbb" =
      ⟨.error ("Checksum mismatch for " ++ "linux-x86_64-gnu"), false, false⟩ :=
  c7_nonempty_checksum_mismatch_fatal [("linux-x86_64-gnu", "aaaa")] "/b"
    "linux-x86_64-gnu" "bbbb" "aaaa" rfl (by decide) (by decide)

/-- C8: on Linux, `amd64` and `x86_64` normalize to the same tag, as do
`arm64` and `aarch64`; with an inconclusive ldd probe, the presence of the
musl loader file at its fixed `/lib` path forces the musl-flavored tag;
and with neither musl signal the glibc-flavored tag results. -/
theorem c8_platform_normalization (env : Env) :
    (get_platform { env with system := "linux", machine := "amd64" } =
       get_platform { env with system := "linux", machine := "x86_64" }) ∧
    (get_platform { env with system := "linux", machine := "arm64" } =
       get_platform { env with system := "linux", machine := "aarch64" }) ∧
    (env.system = "linux" → (env.machine = "x86_64" ∨ env.machine = "amd64") →
       lddMuslSignal env = false →
       env.path_exists "/lib/ld-musl-x86_64.so.1" = true →
       get_platform env = .ok "linux-x86_64-musl") ∧
    (env.system = "linux" → (env.machine = "aarch64" ∨ env.machine = "arm64") →
       lddMuslSignal env = false →
       env.path_exists "/lib/ld-musl-aarch64.so.1" = true →
       get_platform env = .ok "linux-aarch64-musl") ∧
    (env.system = "linux" → (env.machine = "x86_64" ∨ env.machine = "amd64") →
       lddMuslSignal env = false →
       env.path_exists "/lib/ld-musl-x86_64.so.1" = false →
       env.path_exists "/lib/ld-musl-aarch64.so.1" = false →
       get_platform env = .ok "linux-x86_64-gnu") := by
  obtain ⟨sys, mach, ldd, pe, wh, dir, be, bb, lv, dl⟩ := env
  refine ⟨rfl, rfl, ?_, ?_, ?_⟩
  · intro h1 h2 h3 h4
    simp only [lddMuslSignal] at h3
    simp only at h1 h4
    rcases h2 with h2 | h2 <;> simp only at h2 <;>
      simp [get_platform, linuxTag, lddMuslSignal, muslLoaders, h1, h2, h3, h4]
  · intro h1 h2 h3 h4
    simp only [lddMuslSignal] at h3
    simp only at h1 h4
    rcases h2 with h2 | h2 <;> simp only at h2 <;>
      simp [get_platform, linuxTag, lddMuslSignal, muslLoaders, h1, h2, h3, h4]
  · intro h1 h2 h3 h4 h5
    simp only [lddMuslSignal] at h3
    simp only at h1 h4 h5
    rcases h2 with h2 | h2 <;> simp only at h2 <;>
      simp [get_platform, linuxTag, lddMuslSignal, muslLoaders, h1, h2, h3, h4, h5]

/-- An x86-64 Linux environment whose ldd probe raised
(`FileNotFoundError`) and where the musl loader file is present at its
fixed path. -/
def muslLoaderEnv : Env :=
  { baseEnv with ldd_output := none,
                 path_exists := fun s => s == "/lib/ld-musl-x86_64.so.1" }

/-- C8, witness: with an inconclusive ldd probe and the musl loader file
present, detection yields the musl tag. -/
theorem c8_witness : get_platform muslLoaderEnv = .ok "linux-x86_64-musl" :=
  (c8_platform_normalization muslLoaderEnv).2.2.1 rfl (Or.inl rfl) rfl rfl

/-- C9, counterexample: on an unrecognized OS family, `_get_platform`
raises `Pg0NotFoundError` — the very class whose meaning is "pg0 binary
not found and could not be installed" (the `EngineNotFound` of the
taxonomy) — and the source defines no distinct unsupported-platform
exception class at all (see `Pg0Exc`), contradicting the claim that the
failure is a distinct error and not `EngineNotFound`. -/
theorem c9_unsupported_is_notfound_cex :
    get_platform { baseEnv with system := "plan9" } =
      .error (.Pg0NotFoundError "Unsupported platform: plan9") := rfl

/-- C9, amended: an unrecognized OS family or (on Linux) an unrecognized
machine string fails platform detection immediately with
`Pg0NotFoundError` — the same class used for a missing binary; no distinct
unsupported-platform class exists — carrying an "Unsupported ..." message,
and `install` propagates the failure without retrying. -/
theorem c9_unsupported_platform_error (env : Env)
    (h1 : env.system ≠ "darwin") (h2 : env.system ≠ "linux")
    (h3 : env.system ≠ "windows") :
    get_platform env =
      .error (.Pg0NotFoundError ("Unsupported platform: " ++ env.system)) ∧
    (install (some "v1") true env).result =
      .error (.Pg0NotFoundError ("Unsupported platform: " ++ env.system)) ∧
    (∀ m, m ≠ "x86_64" → m ≠ "amd64" → m ≠ "aarch64" → m ≠ "arm64" →
       get_platform { env with system := "linux", machine := m } =
         .error (.Pg0NotFoundError ("Unsupported Linux architecture: " ++ m))) := by
  obtain ⟨sys, mach, ldd, pe, wh, dir, be, bb, lv, dl⟩ := env
  simp only at h1 h2 h3
  refine ⟨?_, ?_, ?_⟩
  · simp [get_platform, h1, h2, h3]
  · simp [install, get_platform, h1, h2, h3]
  · intro m hm1 hm2 hm3 hm4
    simp [get_platform, hm1, hm2, hm3, hm4]

/-- C9, witness: detection on the unrecognized system `freebsd` fails
with the not-found class and an "Unsupported platform" message. -/
theorem c9_witness :
    get_platform { baseEnv with system := "freebsd" } =
      .error (.Pg0NotFoundError ("Unsupported platform: " ++ "freebsd")) :=
  (c9_unsupported_platform_error { baseEnv with system := "freebsd" }
    (by decide) (by decide) (by decide)).1

/-- C10: `install` is idempotent when not forced — whenever the binary
already exists at the per-user install path, a non-forced `install`
returns that path immediately, with no version lookup, no download
attempt, and no write to the installed file. -/
theorem c10_install_idempotent (env : Env) (version : Option String)
    (h : env.binary_exists = true) :
    install version false env =
      ⟨.ok (env.install_dir ++ "/pg0"), false, false, false⟩ := by
  simp [install, h]

/-- C10, witness: with the binary present, a non-forced latest-version
install returns the installed path and performs nothing else. -/
theorem c10_witness :
    install none false { baseEnv with binary_exists := true } =
      ⟨.ok ("/home/user/.local/bin" ++ "/pg0"), false, false, false⟩ :=
  c10_install_idempotent { baseEnv with binary_exists := true } none rfl

end Pg0Client
